import Mathlib

/-
Verification of the Atmosphere-Directory community portal
(src/streamlit_app.py) against its natural-language specification.

The program keeps all state in spreadsheet worksheets (lists of rows of
string cells).  The logic verified here is the approval/expiry state
machine and the visibility filter:

  * `TRUE_LIKE` / `isTrueLike`  — the true-like status token test
    (streamlit_app.py line 94 and the normalisation used at lines 297
    and 333);
  * `df_public`                 — the public visibility filter (lines
    292-303);
  * `member_is_approved`        — the submitter gate (lines 324-333);
  * `save_member` / `save_directory` / `save_vendor` — submission
    payload construction (lines 356-405);
  * `approve_by_id`, `reject_by_id`, `extend_expiry` — the moderation
    cell updates (lines 431-494) together with the admin handlers
    (lines 768-842);
  * the pending queues (lines 768, 787, 816).

Dates: the program stores dates as ISO `YYYY-MM-DD` strings produced by
`datetime.date.isoformat` and parses them with `date.fromisoformat` /
`pandas.to_datetime`.  Days are modelled as integers (days since
1970-01-01, Gregorian, via the standard civil-from-days conversion) and
instants as integer minutes since 1970-01-01 00:00 UTC; a date string
denotes the instant at midnight of that day, exactly as
`pandas.to_datetime` turns `"YYYY-MM-DD"` into midnight UTC.  The Lean
parser accepts the strict `YYYY-MM-DD` form, the only form the program
ever writes; `pandas.to_datetime` additionally accepts other layouts,
which no claim here depends on.
-/

/-! ## String utilities -/

/-- Python `x or default` on strings: the default replaces the empty
(falsy) string. -/
def orDefault (s t : String) : String :=
  if s = "" then t else s

/-- Python `str.strip()`: drop surrounding whitespace.  (Python strips
the full Unicode whitespace class; `Char.isWhitespace` covers the ASCII
whitespace this app writes.) -/
def pyStrip (s : String) : String :=
  String.mk (((s.data.dropWhile Char.isWhitespace).reverse.dropWhile Char.isWhitespace).reverse)

/-- Python `str.lower()`; `Char.toLower` is its restriction to ASCII,
which covers the status tokens compared here. -/
def pyLower (s : String) : String :=
  String.mk (s.data.map Char.toLower)

/-- Python `str.upper()`, ASCII fragment. -/
def pyUpper (s : String) : String :=
  String.mk (s.data.map Char.toUpper)

/-- `TRUE_LIKE = {"true", "yes", "y", "1"}` (streamlit_app.py line 94). -/
def TRUE_LIKE : List String :=
  ["true", "yes", "y", "1"]

/-- The status normalisation applied before the `TRUE_LIKE` membership
test: `.astype(str).str.strip().str.lower().isin(TRUE_LIKE)`
(streamlit_app.py lines 297 and 333). -/
def isTrueLike (s : String) : Bool :=
  TRUE_LIKE.contains (pyLower (pyStrip s))

/-! ## Calendar arithmetic

`datetime.date` arithmetic, encoded as integer day numbers with day 0 =
1970-01-01 (proleptic Gregorian, the civil-from-days algorithm). -/

def isLeapYear (y : Int) : Bool :=
  y % 4 = 0 && (y % 100 ≠ 0 || y % 400 = 0)

def daysInMonth (y m : Int) : Int :=
  if m = 2 then (if isLeapYear y then 29 else 28)
  else if m = 4 ∨ m = 6 ∨ m = 9 ∨ m = 11 then 30
  else 31

/-- Day number (days since 1970-01-01) of the civil date `y-m-d`. -/
def daysFromCivil (y m d : Int) : Int :=
  let y2 := if m ≤ 2 then y - 1 else y
  let era := y2.fdiv 400
  let yoe := y2 - era * 400
  let doy := (153 * (if 2 < m then m - 3 else m + 9) + 2).fdiv 5 + d - 1
  let doe := yoe * 365 + yoe.fdiv 4 - yoe.fdiv 100 + doy
  era * 146097 + doe - 719468

/-- Civil date `(y, m, d)` of a day number. -/
def civilFromDays (z0 : Int) : Int × Int × Int :=
  let z := z0 + 719468
  let era := z.fdiv 146097
  let doe := z - era * 146097
  let yoe := (doe - doe.fdiv 1460 + doe.fdiv 36524 - doe.fdiv 146096).fdiv 365
  let y := yoe + era * 400
  let doy := doe - (365 * yoe + yoe.fdiv 4 - yoe.fdiv 100)
  let mp := (5 * doy + 2).fdiv 153
  let d := doy - (153 * mp + 2).fdiv 5 + 1
  let m := if mp < 10 then mp + 3 else mp - 9
  (if m ≤ 2 then y + 1 else y, m, d)

def digit? (c : Char) : Option Nat :=
  if c.isDigit then some (c.toNat - 48) else none

def parseDigitsAux : List Char → Nat → Option Nat
  | [], acc => some acc
  | c :: cs, acc =>
    match digit? c with
    | some d => parseDigitsAux cs (acc * 10 + d)
    | none => none

def parseDigits : List Char → Option Nat
  | [] => none
  | l => parseDigitsAux l 0

/-- Python `int(s)` on a decimal string: optional sign, surrounding
whitespace tolerated, anything else raises (`none`).  (Python also
allows `_` digit separators, which the app never produces.) -/
def parsePyInt (s : String) : Option Int :=
  match (pyStrip s).data with
  | '-' :: rest => (parseDigits rest).map (fun n => -(Int.ofNat n))
  | '+' :: rest => (parseDigits rest).map Int.ofNat
  | l => (parseDigits l).map Int.ofNat

/-- `datetime.date.fromisoformat` / `pandas.to_datetime` on the strict
`YYYY-MM-DD` form the app writes: `none` models the `ValueError` /
`NaT` outcome for blank or malformed values. -/
def parseIsoDate (s : String) : Option Int :=
  match s.data with
  | [c1, c2, c3, c4, h1, c5, c6, h2, c7, c8] =>
    match digit? c1, digit? c2, digit? c3, digit? c4,
          digit? c5, digit? c6, digit? c7, digit? c8 with
    | some y1, some y2, some y3, some y4, some m1, some m2, some d1, some d2 =>
      if h1 = '-' ∧ h2 = '-' then
        let y : Int := Int.ofNat (y1 * 1000 + y2 * 100 + y3 * 10 + y4)
        let m : Int := Int.ofNat (m1 * 10 + m2)
        let d : Int := Int.ofNat (d1 * 10 + d2)
        if 1 ≤ y ∧ y ≤ 9999 ∧ 1 ≤ m ∧ m ≤ 12 ∧ 1 ≤ d ∧ d ≤ daysInMonth y m
        then some (daysFromCivil y m d)
        else none
      else none
    | _, _, _, _, _, _, _, _ => none
  | _ => none

def padNat (w n : Nat) : String :=
  let s := toString n
  if s.length < w then String.mk (List.replicate (w - s.length) '0') ++ s else s

/-- `datetime.date.isoformat` of a day number. -/
def isoOfDay (z : Int) : String :=
  let c := civilFromDays z
  padNat 4 c.1.toNat ++ "-" ++ padNat 2 c.2.1.toNat ++ "-" ++ padNat 2 c.2.2.toNat

/-! ## DataFrames

`read_df` builds `pd.DataFrame(vals[1:], columns=vals[0])` from a
worksheet: a column-name list plus positional string rows.  A missing
cell reads as the empty string. -/

structure DataFrame where
  cols : List String
  rows : List (List String)
deriving DecidableEq

/-- `pandas.DataFrame.empty`: true when either axis has length 0. -/
def DataFrame.isEmpty (df : DataFrame) : Bool :=
  df.rows.isEmpty || df.cols.isEmpty

/-- Column access `row[c]` through the header list (first occurrence,
as pandas label lookup on the unique headers this app uses). -/
def getCellD (cols r : List String) (c : String) : String :=
  match cols.findIdx? (· == c) with
  | some i => r.getD i ""
  | none => ""

/-- The approval part of `df_public` (lines 296-298): when the approval
column exists, keep the rows whose status is a true-like token. -/
def apFilter (cols : List String) (ac : String) (rows : List (List String)) : List (List String) :=
  if ac ∈ cols then rows.filter (fun r => isTrueLike (getCellD cols r ac)) else rows

/-- The row test of the expiry part of `df_public` (lines 300-302):
`pd.to_datetime(..., errors="coerce", utc=True)` turns the cell into
midnight UTC of its date (or `NaT`), and the row is kept when the value
`isna()` or is `>=` the current instant `now` (minutes since epoch). -/
def expKeep (cols : List String) (c : String) (now : Int) (r : List String) : Bool :=
  match parseIsoDate (getCellD cols r c) with
  | none => true
  | some day => day * 1440 ≥ now

/-- The expiry part of `df_public` (lines 299-302): applied only when
`expires_col` is non-None, non-empty and present in the columns. -/
def expFilter (cols : List String) (ec : Option String) (now : Int) (rows : List (List String)) : List (List String) :=
  match ec with
  | none => rows
  | some c => if c ≠ "" ∧ c ∈ cols then rows.filter (expKeep cols c now) else rows

/-- `df_public` (streamlit_app.py lines 292-303). -/
def df_public (df : DataFrame) (ac : String) (ec : Option String) (now : Int) : DataFrame :=
  if df.isEmpty then ⟨[], []⟩
  else ⟨df.cols, expFilter df.cols ec now (apFilter df.cols ac df.rows)⟩

/-- The public-view filter as the specification words it (claim C2):
keep the approved rows and, with an expiry column, only those whose
expires-on is blank/unparseable or whose **date** is today-or-later,
today being the calendar date of the evaluation instant.  Stated
separately from `df_public` so the two can be compared. -/
def publicViewClaimed (df : DataFrame) (ac : String) (ec : Option String) (now : Int) : DataFrame :=
  if df.isEmpty then ⟨[], []⟩
  else
    let keep := fun r =>
      isTrueLike (getCellD df.cols r ac) &&
      (match ec with
       | none => true
       | some c =>
         if c ≠ "" ∧ c ∈ df.cols then
           match parseIsoDate (getCellD df.cols r c) with
           | none => true
           | some day => day ≥ now.fdiv 1440
         else true)
    ⟨df.cols, df.rows.filter keep⟩

/-- `member_is_approved` (streamlit_app.py lines 324-333).  pandas
raises a `KeyError` when a row matches but the `Approved` column is
absent; `getCellD` totalises that read to `""`, which likewise yields
`false` — in both systems the submitter is not treated as approved. -/
def member_is_approved (email : String) (members : DataFrame) : Bool :=
  if email = "" then false
  else if members.isEmpty || !(members.cols.contains "Email") then false
  else
    let m := members.rows.filter
      (fun r => pyLower (pyStrip (getCellD members.cols r "Email")) == pyLower (pyStrip email))
    if m.isEmpty then false
    else m.any (fun r => isTrueLike (getCellD members.cols r "Approved"))

/-- The pending queues `pend_m` / `pend_d` / `pend_v`
(streamlit_app.py lines 768, 787, 816):
`df[df["Approved"].astype(str).str.upper() != "TRUE"]` when the frame
is non-empty and has the column, else an empty frame. -/
def pending_rows (df : DataFrame) : DataFrame :=
  if !df.isEmpty ∧ "Approved" ∈ df.cols then
    ⟨df.cols, df.rows.filter (fun r => pyUpper (getCellD df.cols r "Approved") ≠ "TRUE")⟩
  else ⟨[], []⟩

/-! ## Worksheets

A gspread worksheet: the full grid of rows including the header row,
1-based cell addressing.  `ws.cell(r, c).value` of an empty/absent cell
is falsy, modelled as `""`. -/

structure Ws where
  rows : List (List String)
deriving DecidableEq

/-- Apply `f` to element `n` (0-based); identity beyond the end. -/
def modifyNth (l : List (List String)) (n : Nat) (f : List String → List String) : List (List String) :=
  match l, n with
  | [], _ => []
  | x :: xs, 0 => f x :: xs
  | x :: xs, n + 1 => x :: modifyNth xs n f

/-- Write position `j` (0-based) of a row, padding with empty cells as
the spreadsheet grid does. -/
def setPad : List String → Nat → String → List String
  | [], 0, v => [v]
  | [], n + 1, v => "" :: setPad [] n v
  | _ :: xs, 0, v => v :: xs
  | x :: xs, n + 1, v => x :: setPad xs n v

def Ws.cell (ws : Ws) (r c : Nat) : String :=
  (ws.rows.getD (r - 1) []).getD (c - 1) ""

/-- `ws.update_cell(row, col, value)` (1-based). -/
def Ws.updateCell (ws : Ws) (r c : Nat) (v : String) : Ws :=
  ⟨modifyNth ws.rows (r - 1) (fun row => setPad row (c - 1) v)⟩

/-- `ws.row_values(1)`. -/
def Ws.row1 (ws : Ws) : List String :=
  ws.rows.headD []

/-- 0-based index of the last occurrence of `key` (a Python dict
comprehension `{h: i+1 for i, h in enumerate(row1)}` lets a later
duplicate win). -/
def lastIdxOf? (l : List String) (key : String) : Option Nat :=
  match l with
  | [] => none
  | x :: xs =>
    match lastIdxOf? xs key with
    | some i => some (i + 1)
    | none => if x = key then some 0 else none

/-- `_header_map` (streamlit_app.py lines 432-437): 1-based column index
of a header, from row 1 or, when row 1 is empty, the default headers. -/
def headerMap (ws : Ws) (defaults : List String) (h : String) : Option Nat :=
  let row1 := if ws.row1.isEmpty then defaults else ws.row1
  (lastIdxOf? row1 h).map (· + 1)

def findRowAux (rows : List (List String)) (jIdx : Nat) (key : String) (i : Nat) : Option Nat :=
  match rows with
  | [] => none
  | r :: rs =>
    if pyStrip (r.getD (jIdx - 1) "") = key then some i
    else findRowAux rs jIdx key (i + 1)

/-- `_find_row_by_id` (streamlit_app.py lines 439-447): 1-based index of
the first row (the header row included, since the scan starts at row 1)
whose cell in the identifier column strip-matches the identifier. -/
def findRowById (ws : Ws) (idIdx : Nat) (idVal : String) : Option Nat :=
  findRowAux ws.rows idIdx (pyStrip idVal) 1

/-- `approve_by_id` (streamlit_app.py lines 449-464): writes "TRUE" into
the Approved column of the matching row, then any extra cells whose
header resolves; silently a no-op when the identifier or Approved
column is missing or no row matches. -/
def approve_by_id (ws : Ws) (idCol idVal : String) (defaults : List String)
    (extra : List (String × String)) : Ws :=
  match headerMap ws defaults idCol, headerMap ws defaults "Approved" with
  | some idIdx, some apIdx =>
    match findRowById ws idIdx idVal with
    | some row =>
      let ws1 := ws.updateCell row apIdx "TRUE"
      extra.foldl
        (fun acc kv =>
          match headerMap ws defaults kv.1 with
          | some idx => acc.updateCell row idx kv.2
          | none => acc)
        ws1
    | none => ws
  | _, _ => ws

/-- `reject_by_id` (streamlit_app.py lines 466-476). -/
def reject_by_id (ws : Ws) (idCol idVal : String) (defaults : List String) : Ws :=
  match headerMap ws defaults idCol, headerMap ws defaults "Approved" with
  | some idIdx, some apIdx =>
    match findRowById ws idIdx idVal with
    | some row => ws.updateCell row apIdx "REJECTED"
    | none => ws
  | _, _ => ws

/-- `extend_expiry` (streamlit_app.py lines 478-494).  The source reads
`current = ws.cell(row, ex_idx).value or dt.date.today().isoformat()`
and then parses `current` with `date.fromisoformat`, falling back to
today on a `ValueError`; since `fromisoformat(today.isoformat())` is
`today`, an empty cell bases the extension at `today` directly. -/
def extend_expiry (ws : Ws) (idCol idVal : String) (defaults : List String)
    (extraDays : Int) (today : Int) : Ws :=
  match headerMap ws defaults idCol, headerMap ws defaults "Expires_On" with
  | some idIdx, some exIdx =>
    match findRowById ws idIdx idVal with
    | some row =>
      let current := ws.cell row exIdx
      let cur : Int :=
        if current = "" then today
        else
          match parseIsoDate current with
          | some d => d
          | none => today
      ws.updateCell row exIdx (isoOfDay (cur + extraDays))
    | none => ws
  | _, _ => ws

/-! ## Admin handlers

The Approve-listing and Approve-vendor button handlers
(streamlit_app.py lines 797-804 and 826-833) are the same code modulo
the identifier column and default headers: parse the row's
`Duration_Days` (with `int(x or "0")`, any exception leaving `extra`
empty) and, when positive, pass a recomputed
`Expires_On = today + days` to `approve_by_id`. -/

def approve_with_duration (ws : Ws) (idCol : String) (defaults : List String)
    (idVal durField : String) (today : Int) : Ws :=
  let extra : List (String × String) :=
    match parsePyInt (orDefault durField "0") with
    | some days => if 0 < days then [("Expires_On", isoOfDay (today + days))] else []
    | none => []
  approve_by_id ws idCol idVal defaults extra

/-! ## Schemas (streamlit_app.py lines 143-154) -/

def MEM_HEADERS : List String :=
  ["Member_ID", "Submitted_At", "Approved", "Resident_Type", "Phase", "Wing",
   "Flat_No", "Name", "Email", "Phone"]

def DIR_HEADERS : List String :=
  ["Listing_ID", "Submitted_At", "Approved", "Member_Email", "Resident_Type", "Phase",
   "Wing", "Flat_No", "Business_Name", "Category", "Subcategory", "Service_Type",
   "Short_Description", "Detailed_Description",
   "Image_URL_1", "Image_URL_2", "Image_URL_3", "Duration_Days", "Expires_On"]

def VEN_HEADERS : List String :=
  ["Vendor_ID", "Submitted_At", "Approved", "Member_Email", "Vendor_Name", "Contact",
   "Phone", "Address", "Category", "Short_Description",
   "Image_URL_1", "Image_URL_2", "Image_URL_3", "Duration_Days", "Expires_On"]

/-- The listing-approve handler (lines 797-804), exposing the message
the moderator sees: `st.success("Approved.")` runs unconditionally
after `approve_by_id`. -/
def approve_listing_handler (ws : Ws) (idVal durField : String) (today : Int) : Ws × String :=
  (approve_with_duration ws "Listing_ID" DIR_HEADERS idVal durField today, "Approved.")

/-- The vendor-approve handler (lines 826-833). -/
def approve_vendor_handler (ws : Ws) (idVal durField : String) (today : Int) : Ws × String :=
  (approve_with_duration ws "Vendor_ID" VEN_HEADERS idVal durField today, "Approved.")

/-- The listing-reject handler (lines 806-808): `st.warning("Rejected.")`
runs unconditionally after `reject_by_id`. -/
def reject_listing_handler (ws : Ws) (idVal : String) : Ws × String :=
  (reject_by_id ws "Listing_ID" idVal DIR_HEADERS, "Rejected.")

/-! ## Submission payloads (streamlit_app.py lines 352-405)

`_append_row(ws, data, headers)` appends
`[str(data.get(h, "")) for h in headers]`.  The generated identifier
(`uuid`), the creation timestamp (`_now_iso()`) and the session values
are free parameters here; the kind-specific free-text fields are passed
as an association list read with Python `dict.get(h, "")`. -/

def lookupD (kvs : List (String × String)) (k : String) : String :=
  (((kvs.find? (·.1 == k)).map (·.2)).getD "")

def rowFromPayload (payload : List (String × String)) (headers : List String) : List String :=
  headers.map (lookupD payload)

/-- The `save_member` payload (lines 356-365): `Approved=""`. -/
def save_member_payload (memberId submittedAt : String)
    (data : List (String × String)) : List (String × String) :=
  [("Member_ID", memberId), ("Submitted_At", submittedAt), ("Approved", ""),
   ("Resident_Type", lookupD data "Resident_Type"), ("Phase", lookupD data "Phase"),
   ("Wing", lookupD data "Wing"), ("Flat_No", lookupD data "Flat_No"),
   ("Name", lookupD data "Name"), ("Email", lookupD data "Email"),
   ("Phone", lookupD data "Phone")]

def save_member_row (memberId submittedAt : String)
    (data : List (String × String)) : List String :=
  rowFromPayload (save_member_payload memberId submittedAt data) MEM_HEADERS

/-- The `save_directory` payload (lines 367-387): `Approved=""`,
`days = int(data.get("Duration_Days", 0) or 0)` (an `Int` here, as the
form passes an integer), initial `Expires_On = today + days` when the
duration is positive, else blank. -/
def save_directory_payload (listingId submittedAt memberEmail : String)
    (data : List (String × String)) (days : Int) (today : Int) : List (String × String) :=
  [("Listing_ID", listingId), ("Submitted_At", submittedAt), ("Approved", ""),
   ("Member_Email", memberEmail),
   ("Resident_Type", lookupD data "Resident_Type"), ("Phase", lookupD data "Phase"),
   ("Wing", lookupD data "Wing"), ("Flat_No", lookupD data "Flat_No"),
   ("Business_Name", lookupD data "Business_Name"), ("Category", lookupD data "Category"),
   ("Subcategory", lookupD data "Subcategory"), ("Service_Type", lookupD data "Service_Type"),
   ("Short_Description", lookupD data "Short_Description"),
   ("Detailed_Description", lookupD data "Detailed_Description"),
   ("Image_URL_1", lookupD data "Image_URL_1"), ("Image_URL_2", lookupD data "Image_URL_2"),
   ("Image_URL_3", lookupD data "Image_URL_3"),
   ("Duration_Days", toString days),
   ("Expires_On", if 0 < days then isoOfDay (today + days) else "")]

def save_directory_row (listingId submittedAt memberEmail : String)
    (data : List (String × String)) (days : Int) (today : Int) : List String :=
  rowFromPayload (save_directory_payload listingId submittedAt memberEmail data days today)
    DIR_HEADERS

/-- The `save_vendor` payload (lines 389-405). -/
def save_vendor_payload (vendorId submittedAt memberEmail : String)
    (data : List (String × String)) (days : Int) (today : Int) : List (String × String) :=
  [("Vendor_ID", vendorId), ("Submitted_At", submittedAt), ("Approved", ""),
   ("Member_Email", memberEmail),
   ("Vendor_Name", lookupD data "Vendor_Name"), ("Contact", lookupD data "Contact"),
   ("Phone", lookupD data "Phone"), ("Address", lookupD data "Address"),
   ("Category", lookupD data "Category"),
   ("Short_Description", lookupD data "Short_Description"),
   ("Image_URL_1", lookupD data "Image_URL_1"), ("Image_URL_2", lookupD data "Image_URL_2"),
   ("Image_URL_3", lookupD data "Image_URL_3"),
   ("Duration_Days", toString days),
   ("Expires_On", if 0 < days then isoOfDay (today + days) else "")]

def save_vendor_row (vendorId submittedAt memberEmail : String)
    (data : List (String × String)) (days : Int) (today : Int) : List String :=
  rowFromPayload (save_vendor_payload vendorId submittedAt memberEmail data days today)
    VEN_HEADERS

/-! ## Member sign-in and gated submission (streamlit_app.py lines
335-350, 627-664, 677-704)

`st.session_state.me` is the `Option String` here; the submission forms
are rendered only when it is set, so a submission appends a row exactly
when a verified member identity is present.  The second component of
each result is the message streamlit surfaces. -/

/-- The "Set as me" button (lines 344-349); the text input is stripped
(line 342). -/
def set_me_result (me : Option String) (emailInput : String)
    (members : DataFrame) : Option String × String :=
  let e := pyStrip emailInput
  if member_is_approved e members then
    (some e, "You’re set as a **verified** member.")
  else
    (me, "Not found or not approved yet. Register or wait for approval.")

/-- The business-submission gate and append (lines 629-664). -/
def dir_submit (me : Option String) (listings : List (List String))
    (listingId submittedAt : String) (data : List (String × String))
    (days : Int) (today : Int) : List (List String) × String :=
  match me with
  | none => (listings, "Sign in as a verified member (top bar) to submit.")
  | some m =>
    (listings ++ [save_directory_row listingId submittedAt m data days today],
     "Submitted! Admin will review & approve.")

/-- The vendor-submission gate and append (lines 679-704). -/
def ven_submit (me : Option String) (vendors : List (List String))
    (vendorId submittedAt : String) (data : List (String × String))
    (days : Int) (today : Int) : List (List String) × String :=
  match me with
  | none => (vendors, "Sign in as a verified member (top bar) before submitting.")
  | some m =>
    (vendors ++ [save_vendor_row vendorId submittedAt m data days today],
     "Submitted! Admin will review & approve.")

/-! ## Concrete fixtures

Small worksheets and table snapshots, used by the closed witnesses and
counterexamples.  Day number 20484 is 2026-01-31; day 0 is 1970-01-01. -/

def rowD1 : List String :=
  ["D-1", "2026-01-10T08:00:00Z", "", "res@example.com", "Resident", "Atmosphere 1", "A", "101",
   "Tiffin Service", "Food & Catering", "Home Tiffin", "Home Delivery", "Daily tiffin boxes", "",
   "", "", "", "30", "2026-01-31"]

def rowD2 : List String :=
  ["D-2", "2026-01-11T08:00:00Z", "TRUE", "res@example.com", "Resident", "Atmosphere 1", "B", "202",
   "Math Tuition", "Education", "Tuition", "Evening", "Class 10 maths", "",
   "", "", "", "45", "soon"]

def wsD : Ws :=
  ⟨[DIR_HEADERS, rowD1, rowD2]⟩

def rowV1 : List String :=
  ["V-1", "2026-01-10T08:00:00Z", "", "res@example.com", "Fresh Milk", "Ravi", "9999999999",
   "Market Road", "Retail", "Morning milk delivery", "", "", "", "45", "2026-02-24"]

def wsV : Ws :=
  ⟨[VEN_HEADERS, rowV1]⟩

/-- A mis-configured sheet: no "Approved" (nor "Expires_On") column. -/
def wsNoAp : Ws :=
  ⟨[["Listing_ID", "Submitted_At"], ["D-1", "x"]]⟩

/-- An approved listing whose expiry date is 1970-01-01 (day 0). -/
def rowPub : List String :=
  ["D-9", "1969-12-01T00:00:00Z", "TRUE", "res@example.com", "Resident", "Atmosphere 1", "A", "101",
   "Epoch Shop", "Retail", "Gifts", "Counter", "Keeps time", "", "", "", "", "30", "1970-01-01"]

def dfPub : DataFrame :=
  ⟨DIR_HEADERS, [rowPub]⟩

def rowMPend : List String :=
  ["M-1", "t1", "", "Resident", "Atmosphere 1", "A", "101", "Asha", "asha@example.com", "111"]

def rowMRej : List String :=
  ["M-2", "t2", "REJECTED", "Resident", "Atmosphere 1", "B", "202", "Ravi", "ravi@example.com", "222"]

def rowMAppr : List String :=
  ["M-3", "t3", "TRUE", "Tenant", "Atmosphere 2", "C", "303", "Meena", "meena@example.com", "333"]

def dfQ : DataFrame :=
  ⟨MEM_HEADERS, [rowMPend, rowMRej, rowMAppr]⟩

/-! ## Helper lemmas -/

theorem modifyNth_length (l : List (List String)) (n : Nat) (f : List String → List String) :
    (modifyNth l n f).length = l.length := by
  induction l generalizing n with
  | nil => rfl
  | cons x xs ih =>
    cases n with
    | zero => rfl
    | succ m => simpa [modifyNth] using ih m

theorem getD_modifyNth_eq (l : List (List String)) (n : Nat) (f : List String → List String)
    (d : List String) (h : n < l.length) :
    (modifyNth l n f).getD n d = f (l.getD n d) := by
  induction l generalizing n with
  | nil => simp at h
  | cons x xs ih =>
    cases n with
    | zero => rfl
    | succ m =>
      simp only [modifyNth, List.getD_cons_succ]
      exact ih m (by simpa using h)

theorem getD_modifyNth_ne (l : List (List String)) (n m : Nat) (f : List String → List String)
    (d : List String) (h : m ≠ n) :
    (modifyNth l n f).getD m d = l.getD m d := by
  induction l generalizing n m with
  | nil => rfl
  | cons x xs ih =>
    cases n with
    | zero =>
      cases m with
      | zero => exact absurd rfl h
      | succ k => rfl
    | succ n0 =>
      cases m with
      | zero => rfl
      | succ k =>
        simp only [modifyNth, List.getD_cons_succ]
        exact ih n0 k (by omega)

theorem modifyNth_ge (l : List (List String)) (n : Nat) (f : List String → List String)
    (h : l.length ≤ n) : modifyNth l n f = l := by
  induction l generalizing n with
  | nil => rfl
  | cons x xs ih =>
    cases n with
    | zero => simp at h
    | succ m =>
      simp only [modifyNth]
      rw [ih m (by simpa using h)]

theorem getD_setPad_eq (l : List String) (j : Nat) (v : String) :
    (setPad l j v).getD j "" = v := by
  induction j generalizing l with
  | zero => cases l <;> rfl
  | succ k ih =>
    cases l with
    | nil => simpa [setPad] using ih []
    | cons x xs => simpa [setPad] using ih xs

theorem getD_setPad_ne (l : List String) (j k : Nat) (v : String) (h : k ≠ j) :
    (setPad l j v).getD k "" = l.getD k "" := by
  induction j generalizing l k with
  | zero =>
    cases l with
    | nil =>
      cases k with
      | zero => exact absurd rfl h
      | succ k0 => simp [setPad]
    | cons x xs =>
      cases k with
      | zero => exact absurd rfl h
      | succ k0 => rfl
  | succ j0 ih =>
    cases l with
    | nil =>
      cases k with
      | zero => rfl
      | succ k0 =>
        simp only [setPad, List.getD_cons_succ]
        have := ih [] k0 (by omega)
        simpa using this
    | cons x xs =>
      cases k with
      | zero => rfl
      | succ k0 =>
        simp only [setPad, List.getD_cons_succ]
        exact ih xs k0 (by omega)

theorem Ws.cell_updateCell_eq (ws : Ws) (i j : Nat) (v : String)
    (h : i - 1 < ws.rows.length) :
    (ws.updateCell i j v).cell i j = v := by
  unfold Ws.updateCell Ws.cell
  simp only
  rw [getD_modifyNth_eq _ _ _ _ h, getD_setPad_eq]

theorem Ws.cell_updateCell_ne (ws : Ws) (i j : Nat) (v : String) (r c : Nat)
    (h : r - 1 ≠ i - 1 ∨ c - 1 ≠ j - 1) :
    (ws.updateCell i j v).cell r c = ws.cell r c := by
  unfold Ws.updateCell Ws.cell
  simp only
  rcases h with h | h
  · rw [getD_modifyNth_ne _ _ _ _ _ h]
  · by_cases hr : r - 1 = i - 1
    · rw [hr]
      by_cases hlen : i - 1 < ws.rows.length
      · rw [getD_modifyNth_eq _ _ _ _ hlen, getD_setPad_ne _ _ _ _ h]
      · have hge : ws.rows.length ≤ i - 1 := by omega
        rw [modifyNth_ge _ _ _ hge]
    · rw [getD_modifyNth_ne _ _ _ _ _ hr]

theorem Ws.updateCell_length (ws : Ws) (i j : Nat) (v : String) :
    (ws.updateCell i j v).rows.length = ws.rows.length :=
  modifyNth_length _ _ _

theorem findRowAux_bounds (rows : List (List String)) (j : Nat) (key : String) (s i : Nat)
    (h : findRowAux rows j key s = some i) : s ≤ i ∧ i - s < rows.length := by
  induction rows generalizing s with
  | nil => simp [findRowAux] at h
  | cons r rs ih =>
    by_cases hc : pyStrip (r.getD (j - 1) "") = key
    · simp only [findRowAux] at h
      rw [if_pos hc] at h
      have : s = i := Option.some.inj h
      subst this
      simp only [List.length_cons]
      omega
    · simp only [findRowAux, if_neg hc] at h
      have := ih (s + 1) h
      simp only [List.length_cons]
      omega

theorem findRowById_bounds (ws : Ws) (j : Nat) (v : String) (i : Nat)
    (h : findRowById ws j v = some i) : 1 ≤ i ∧ i - 1 < ws.rows.length :=
  findRowAux_bounds ws.rows j (pyStrip v) 1 i h

theorem headerMap_pos (ws : Ws) (defaults : List String) (h : String) (n : Nat)
    (hm : headerMap ws defaults h = some n) : 1 ≤ n := by
  unfold headerMap at hm
  rcases Option.map_eq_some'.mp hm with ⟨m, _, rfl⟩
  omega

theorem filter_self_idem {α : Type} (p : α → Bool) (l : List α) :
    List.filter p (List.filter p l) = List.filter p l := by
  induction l with
  | nil => rfl
  | cons a l ih =>
    by_cases hp : p a <;> simp [List.filter_cons, hp, ih]

theorem filter_pq_idem {α : Type} (p q : α → Bool) (l : List α) :
    List.filter q (List.filter p (List.filter q (List.filter p l))) =
      List.filter q (List.filter p l) := by
  simp only [List.filter_filter]
  refine List.filter_congr ?_
  intro a _
  cases p a <;> cases q a <;> rfl

/-- A row whose status is not true-like is never in the `df_public`
output, whatever the expiry treatment. -/
theorem not_mem_df_public (df : DataFrame) (r : List String) (ec : Option String) (now : Int)
    (hA : "Approved" ∈ df.cols)
    (hr : isTrueLike (getCellD df.cols r "Approved") = false) :
    r ∉ (df_public df "Approved" ec now).rows := by
  intro hmem
  unfold df_public at hmem
  by_cases hempty : df.isEmpty
  · simp [hempty] at hmem
  · simp only [hempty, if_neg, Bool.false_eq_true, not_false_eq_true] at hmem
    have h1 : r ∈ apFilter df.cols "Approved" df.rows := by
      rcases ec with _ | c
      · exact hmem
      · simp only [expFilter] at hmem
        by_cases hc : c ≠ "" ∧ c ∈ df.cols
        · rw [if_pos hc] at hmem
          exact (List.mem_filter.mp hmem).1
        · rwa [if_neg hc] at hmem
    unfold apFilter at h1
    rw [if_pos hA] at h1
    have := (List.mem_filter.mp h1).2
    rw [hr] at this
    exact absurd this (by simp)

/-- What `approve_by_id` writes when the lookups succeed and the extra
cells are a recomputed expiry. -/
theorem approve_by_id_spec (ws : Ws) (idCol idVal : String) (defaults : List String)
    (e : String) (idIdx apIdx exIdx i : Nat)
    (hId : headerMap ws defaults idCol = some idIdx)
    (hAp : headerMap ws defaults "Approved" = some apIdx)
    (hEx : headerMap ws defaults "Expires_On" = some exIdx)
    (hApEx : apIdx ≠ exIdx)
    (hfind : findRowById ws idIdx idVal = some i) :
    (approve_by_id ws idCol idVal defaults [("Expires_On", e)]).cell i apIdx = "TRUE" ∧
    (approve_by_id ws idCol idVal defaults [("Expires_On", e)]).cell i exIdx = e := by
  have hb := findRowById_bounds ws idIdx idVal i hfind
  have hap1 := headerMap_pos ws defaults "Approved" apIdx hAp
  have hex1 := headerMap_pos ws defaults "Expires_On" exIdx hEx
  unfold approve_by_id
  simp only [hId, hAp, hfind, List.foldl_cons, List.foldl_nil, hEx]
  constructor
  · rw [Ws.cell_updateCell_ne]
    · exact Ws.cell_updateCell_eq ws i apIdx "TRUE" hb.2
    · right
      omega
  · exact Ws.cell_updateCell_eq _ i exIdx e (by rw [Ws.updateCell_length]; exact hb.2)

/-- `approve_by_id` / `reject_by_id` when the schema or the row lookup
fails: the worksheet is returned untouched. -/
theorem approve_reject_noop (ws : Ws) (idCol idVal : String) (defaults : List String)
    (extra : List (String × String))
    (h : headerMap ws defaults idCol = none ∨ headerMap ws defaults "Approved" = none ∨
         ∀ idIdx, headerMap ws defaults idCol = some idIdx →
           findRowById ws idIdx idVal = none) :
    approve_by_id ws idCol idVal defaults extra = ws ∧
    reject_by_id ws idCol idVal defaults = ws := by
  rcases hid : headerMap ws defaults idCol with _ | idIdx
  · simp [approve_by_id, reject_by_id, hid]
  · rcases hap : headerMap ws defaults "Approved" with _ | apIdx
    · simp [approve_by_id, reject_by_id, hid, hap]
    · have hfind : findRowById ws idIdx idVal = none := by
        rcases h with h | h | h
        · rw [hid] at h
          exact absurd h (by simp)
        · rw [hap] at h
          exact absurd h (by simp)
        · exact h idIdx hid
      simp [approve_by_id, reject_by_id, hid, hap, hfind]

/-- C4: for a record found by identifier and any integer `extra_days`,
`extend_expiry` writes an `Expires_On` equal to the record's prior
expiry date plus exactly `extra_days` days; when the prior value is
absent or unparseable as a calendar date the base is today instead, and
the operation is total (it never fails). -/
theorem extend_expiry_spec (ws : Ws) (idCol idVal : String) (defaults : List String)
    (n today : Int) (idIdx exIdx i : Nat)
    (hId : headerMap ws defaults idCol = some idIdx)
    (hEx : headerMap ws defaults "Expires_On" = some exIdx)
    (hfind : findRowById ws idIdx idVal = some i) :
    (∀ p, parseIsoDate (ws.cell i exIdx) = some p →
      (extend_expiry ws idCol idVal defaults n today).cell i exIdx = isoOfDay (p + n)) ∧
    (parseIsoDate (ws.cell i exIdx) = none →
      (extend_expiry ws idCol idVal defaults n today).cell i exIdx = isoOfDay (today + n)) := by
  have hb := findRowById_bounds ws idIdx idVal i hfind
  unfold extend_expiry
  simp only [hId, hEx, hfind]
  constructor
  · intro p hp
    have hne : ws.cell i exIdx ≠ "" := by
      intro he
      rw [he] at hp
      simp [parseIsoDate] at hp
    rw [if_neg hne, hp]
    exact Ws.cell_updateCell_eq ws i exIdx _ hb.2
  · intro hp
    by_cases he : ws.cell i exIdx = ""
    · rw [if_pos he]
      exact Ws.cell_updateCell_eq ws i exIdx _ hb.2
    · rw [if_neg he, hp]
      exact Ws.cell_updateCell_eq ws i exIdx _ hb.2

/-- C9: `extend_expiry` mutates only the found record's `Expires_On`
cell — its status cell, every other field of that record and every
other row of the worksheet read back unchanged — and on a failed
lookup the whole worksheet is returned untouched. -/
theorem extend_expiry_frame_spec (ws : Ws) (idCol idVal : String) (defaults : List String)
    (n today : Int) :
    (∀ idIdx exIdx i, headerMap ws defaults idCol = some idIdx →
      headerMap ws defaults "Expires_On" = some exIdx →
      findRowById ws idIdx idVal = some i →
      ∀ r c, 1 ≤ r → 1 ≤ c → ¬(r = i ∧ c = exIdx) →
        (extend_expiry ws idCol idVal defaults n today).cell r c = ws.cell r c) ∧
    ((headerMap ws defaults idCol = none ∨ headerMap ws defaults "Expires_On" = none ∨
      ∀ idIdx, headerMap ws defaults idCol = some idIdx →
        findRowById ws idIdx idVal = none) →
      extend_expiry ws idCol idVal defaults n today = ws) := by
  constructor
  · intro idIdx exIdx i hId hEx hfind r c hr hc hne
    have hi := (findRowById_bounds ws idIdx idVal i hfind).1
    have hex1 := headerMap_pos ws defaults "Expires_On" exIdx hEx
    unfold extend_expiry
    simp only [hId, hEx, hfind]
    apply Ws.cell_updateCell_ne
    omega
  · intro h
    rcases hid : headerMap ws defaults idCol with _ | idIdx
    · simp [extend_expiry, hid]
    · rcases hex : headerMap ws defaults "Expires_On" with _ | exIdx
      · simp [extend_expiry, hid, hex]
      · have hfind : findRowById ws idIdx idVal = none := by
          rcases h with h | h | h
          · rw [hid] at h
            exact absurd h (by simp)
          · rw [hex] at h
            exact absurd h (by simp)
          · exact h idIdx hid
        simp [extend_expiry, hid, hex, hfind]

/-- C2 (amended): for a table carrying the approval and expiry columns,
`df_public` keeps exactly the rows whose status satisfies the true-like
test and whose `Expires_On` is blank/unparseable (kept, fail-open) or —
taken as midnight UTC of that date — is at or after the evaluation
instant `now`.  (The claim's original "date is today or later" is
amended by the counterexample `df_public_drops_today_cex`: a row whose
expiry date equals today is dropped at any instant past midnight,
because the code compares the date's midnight against the full current
timestamp.) -/
theorem mem_df_public_iff (df : DataFrame) (now : Int) (r : List String)
    (hA : "Approved" ∈ df.cols) (hE : "Expires_On" ∈ df.cols) :
    r ∈ (df_public df "Approved" (some "Expires_On") now).rows ↔
      r ∈ df.rows ∧ isTrueLike (getCellD df.cols r "Approved") = true ∧
        (parseIsoDate (getCellD df.cols r "Expires_On") = none ∨
         ∃ day, parseIsoDate (getCellD df.cols r "Expires_On") = some day ∧
           now ≤ day * 1440) := by
  have hcols : ¬df.cols.isEmpty := by
    cases hc : df.cols with
    | nil => rw [hc] at hA; simp at hA
    | cons a l => simp
  unfold df_public
  by_cases hempty : df.isEmpty
  · have hrows : df.rows = [] := by
      unfold DataFrame.isEmpty at hempty
      rcases Bool.or_eq_true_iff.mp hempty with h | h
      · exact List.isEmpty_iff.mp h
      · exact absurd h hcols
    simp [hempty, hrows]
  · simp only [hempty, if_neg, Bool.false_eq_true, not_false_eq_true]
    simp only [expFilter, apFilter, if_pos hA]
    have hcond : ("Expires_On" : String) ≠ "" ∧ ("Expires_On" : String) ∈ df.cols :=
      ⟨by decide, hE⟩
    rw [if_pos hcond]
    simp only [List.mem_filter]
    constructor
    · rintro ⟨⟨hmem, hap⟩, hexp⟩
      refine ⟨hmem, hap, ?_⟩
      unfold expKeep at hexp
      rcases hp : parseIsoDate (getCellD df.cols r "Expires_On") with _ | day
      · exact Or.inl rfl
      · rw [hp] at hexp
        simp only [ge_iff_le, decide_eq_true_eq] at hexp
        exact Or.inr ⟨day, rfl, hexp⟩
    · rintro ⟨hmem, hap, hexp⟩
      refine ⟨⟨hmem, hap⟩, ?_⟩
      unfold expKeep
      rcases hexp with hp | ⟨day, hp, hday⟩
      · rw [hp]
      · rw [hp]
        simpa using hday

/-- One more pass of the two `df_public` filters changes nothing. -/
theorem expap_idem (cols : List String) (ac : String) (ec : Option String) (now : Int)
    (rows : List (List String)) :
    expFilter cols ec now (apFilter cols ac (expFilter cols ec now (apFilter cols ac rows))) =
      expFilter cols ec now (apFilter cols ac rows) := by
  unfold apFilter expFilter
  rcases ec with _ | c
  · by_cases hac : ac ∈ cols
    · simp only [if_pos hac]
      exact filter_self_idem _ _
    · simp only [if_neg hac]
  · by_cases hc : c ≠ "" ∧ c ∈ cols
    · simp only [if_pos hc]
      by_cases hac : ac ∈ cols
      · simp only [if_pos hac]
        exact filter_pq_idem _ _ _
      · simp only [if_neg hac]
        exact filter_self_idem _ _
    · simp only [if_neg hc]
      by_cases hac : ac ∈ cols
      · simp only [if_pos hac]
        exact filter_self_idem _ _
      · simp only [if_neg hac]

/-! ## Claim theorems, witnesses and counterexamples -/

/-- C1: approving a record whose `Duration_Days` parses to a positive
integer (on any sheet whose headers resolve the identifier, `Approved`,
`Expires_On` and `Duration_Days` columns — `DIR_HEADERS` and
`VEN_HEADERS` both do) writes the approved sentinel "TRUE" into the
record's status cell and recomputes its `Expires_On` to
(approval day + requested duration): the base is `today` at approval
time, not the original submission date. -/
theorem approve_recomputes_expiry_from_approval_day
    (ws : Ws) (idCol idVal : String) (defaults : List String)
    (idIdx apIdx exIdx durIdx i : Nat) (d today : Int)
    (hId : headerMap ws defaults idCol = some idIdx)
    (hAp : headerMap ws defaults "Approved" = some apIdx)
    (hEx : headerMap ws defaults "Expires_On" = some exIdx)
    (hDur : headerMap ws defaults "Duration_Days" = some durIdx)
    (hApEx : apIdx ≠ exIdx)
    (hfind : findRowById ws idIdx idVal = some i)
    (hdur : parsePyInt (orDefault (ws.cell i durIdx) "0") = some d)
    (hd : 0 < d) :
    (approve_with_duration ws idCol defaults idVal (ws.cell i durIdx) today).cell i apIdx
      = "TRUE" ∧
    (approve_with_duration ws idCol defaults idVal (ws.cell i durIdx) today).cell i exIdx
      = isoOfDay (today + d) := by
  unfold approve_with_duration
  simp only [hdur, if_pos hd]
  exact approve_by_id_spec ws idCol idVal defaults _ idIdx apIdx exIdx i hId hAp hEx hApEx hfind

/-- C1 witness: listing "D-1" of `wsD` (Duration_Days "30") approved on
day 20500. -/
theorem approve_recomputes_expiry_from_approval_day_witness :
    (approve_with_duration wsD "Listing_ID" DIR_HEADERS "D-1" (wsD.cell 2 18) 20500).cell 2 3
      = "TRUE" ∧
    (approve_with_duration wsD "Listing_ID" DIR_HEADERS "D-1" (wsD.cell 2 18) 20500).cell 2 19
      = isoOfDay (20500 + 30) :=
  approve_recomputes_expiry_from_approval_day wsD "Listing_ID" "D-1" DIR_HEADERS
    1 3 19 18 2 30 20500
    (by decide) (by decide) (by decide) (by decide) (by decide) (by decide) (by decide) (by decide)

/-- C2 witness: the approved, not-yet-expired row `rowPub` at instant 0
(midnight of its expiry date). -/
theorem mem_df_public_iff_witness :
    rowPub ∈ (df_public dfPub "Approved" (some "Expires_On") 0).rows ↔
      rowPub ∈ dfPub.rows ∧ isTrueLike (getCellD dfPub.cols rowPub "Approved") = true ∧
        (parseIsoDate (getCellD dfPub.cols rowPub "Expires_On") = none ∨
         ∃ day, parseIsoDate (getCellD dfPub.cols rowPub "Expires_On") = some day ∧
           (0 : Int) ≤ day * 1440) :=
  mem_df_public_iff dfPub 0 rowPub (by decide) (by decide)

/-- C2 counterexample: at instant 60 (1970-01-01 01:00 UTC) the
approved row `rowPub`, whose `Expires_On` date "1970-01-01" is exactly
today, is dropped by `df_public` — the code compares the date's
midnight against the full current timestamp — while the spec-worded
filter `publicViewClaimed` ("expiry date today-or-later is kept")
keeps it. -/
theorem df_public_drops_today_cex :
    (df_public dfPub "Approved" (some "Expires_On") 60).rows = [] ∧
    (publicViewClaimed dfPub "Approved" (some "Expires_On") 60).rows = [rowPub] := by
  constructor
  · decide
  · decide

/-- C3: a status string passes the approval test exactly when its
trimmed, lower-cased form is one of the true-like tokens "true",
"yes", "y", "1"; in particular "TRUE", " yes " and "Y" pass while
"no", "" and "REJECTED" do not. -/
theorem isTrueLike_iff_token :
    (∀ s : String, isTrueLike s = true ↔
      (pyLower (pyStrip s) = "true" ∨ pyLower (pyStrip s) = "yes" ∨
       pyLower (pyStrip s) = "y" ∨ pyLower (pyStrip s) = "1")) ∧
    isTrueLike "TRUE" = true ∧ isTrueLike " yes " = true ∧ isTrueLike "Y" = true ∧
    isTrueLike "no" = false ∧ isTrueLike "" = false ∧ isTrueLike "REJECTED" = false := by
  refine ⟨fun s => ?_, by decide, by decide, by decide, by decide, by decide, by decide⟩
  unfold isTrueLike TRUE_LIKE
  simp [List.contains]

/-- C4 witness: extending listing "D-1" of `wsD` (prior expiry
"2026-01-31" = day 20484) by 10 days, and listing "D-2" (unparseable
expiry "soon") by 7 days based at today = 20490. -/
theorem extend_expiry_spec_witness :
    (extend_expiry wsD "Listing_ID" "D-1" DIR_HEADERS 10 20490).cell 2 19
      = isoOfDay (20484 + 10) ∧
    (extend_expiry wsD "Listing_ID" "D-2" DIR_HEADERS 7 20490).cell 3 19
      = isoOfDay (20490 + 7) :=
  ⟨(extend_expiry_spec wsD "Listing_ID" "D-1" DIR_HEADERS 10 20490 1 19 2
      (by decide) (by decide) (by decide)).1 20484 (by decide),
   (extend_expiry_spec wsD "Listing_ID" "D-2" DIR_HEADERS 7 20490 1 19 3
      (by decide) (by decide) (by decide)).2 (by decide)⟩

/-- C5: every newly submitted Member, Listing or Vendor record is
created with a blank status — the Pending state: blank is not a
true-like token — and never appears in the public view of its table,
even immediately after being appended. -/
theorem new_submission_pending_hidden
    (memberId listingId vendorId submittedAt memberEmail : String)
    (dataM dataD dataV : List (String × String)) (daysD daysV todayD todayV : Int) :
    getCellD MEM_HEADERS (save_member_row memberId submittedAt dataM) "Approved" = "" ∧
    getCellD DIR_HEADERS
      (save_directory_row listingId submittedAt memberEmail dataD daysD todayD) "Approved" = "" ∧
    getCellD VEN_HEADERS
      (save_vendor_row vendorId submittedAt memberEmail dataV daysV todayV) "Approved" = "" ∧
    isTrueLike "" = false ∧
    (∀ rows ec now,
      save_member_row memberId submittedAt dataM ∉
        (df_public ⟨MEM_HEADERS, rows ++ [save_member_row memberId submittedAt dataM]⟩
          "Approved" ec now).rows) ∧
    (∀ rows ec now,
      save_directory_row listingId submittedAt memberEmail dataD daysD todayD ∉
        (df_public
          ⟨DIR_HEADERS,
           rows ++ [save_directory_row listingId submittedAt memberEmail dataD daysD todayD]⟩
          "Approved" ec now).rows) ∧
    (∀ rows ec now,
      save_vendor_row vendorId submittedAt memberEmail dataV daysV todayV ∉
        (df_public
          ⟨VEN_HEADERS,
           rows ++ [save_vendor_row vendorId submittedAt memberEmail dataV daysV todayV]⟩
          "Approved" ec now).rows) := by
  refine ⟨rfl, rfl, rfl, by decide, ?_, ?_, ?_⟩
  · intro rows ec now
    exact not_mem_df_public _ _ ec now (show "Approved" ∈ MEM_HEADERS by decide) rfl
  · intro rows ec now
    exact not_mem_df_public _ _ ec now (show "Approved" ∈ DIR_HEADERS by decide) rfl
  · intro rows ec now
    exact not_mem_df_public _ _ ec now (show "Approved" ∈ VEN_HEADERS by decide) rfl

/-- C6: an email whose normalised form does not match an approved
Members row (the empty email included) cannot establish a verified
session: "Set as me" keeps the session identity unset and surfaces the
not-approved warning, and with no session identity the listing and
vendor submission forms refuse — surfacing the sign-in message — and
append no row to their tables. -/
theorem unapproved_email_submission_refused
    (emailInput : String) (members : DataFrame)
    (h : member_is_approved (pyStrip emailInput) members = false)
    (listings vendors : List (List String)) (listingId vendorId submittedAt : String)
    (dataD dataV : List (String × String)) (daysD daysV todayD todayV : Int) :
    (set_me_result none emailInput members).1 = none ∧
    (set_me_result none emailInput members).2 =
      "Not found or not approved yet. Register or wait for approval." ∧
    dir_submit (set_me_result none emailInput members).1 listings
      listingId submittedAt dataD daysD todayD =
      (listings, "Sign in as a verified member (top bar) to submit.") ∧
    ven_submit (set_me_result none emailInput members).1 vendors
      vendorId submittedAt dataV daysV todayV =
      (vendors, "Sign in as a verified member (top bar) before submitting.") := by
  have hs : set_me_result none emailInput members =
      (none, "Not found or not approved yet. Register or wait for approval.") := by
    unfold set_me_result
    simp [h]
  rw [hs]
  exact ⟨rfl, rfl, rfl, rfl⟩

/-- C6 witness: "stranger@example.com" matches no row of `dfQ`. -/
theorem unapproved_email_submission_refused_witness :
    (set_me_result none "stranger@example.com" dfQ).1 = none ∧
    (set_me_result none "stranger@example.com" dfQ).2 =
      "Not found or not approved yet. Register or wait for approval." ∧
    dir_submit (set_me_result none "stranger@example.com" dfQ).1 [rowD1]
      "D-7" "t7" [] 30 20500 =
      ([rowD1], "Sign in as a verified member (top bar) to submit.") ∧
    ven_submit (set_me_result none "stranger@example.com" dfQ).1 [rowV1]
      "V-7" "t7" [] 45 20500 =
      ([rowV1], "Sign in as a verified member (top bar) before submitting.") :=
  unapproved_email_submission_refused "stranger@example.com" dfQ (by decide)
    [rowD1] [rowV1] "D-7" "V-7" "t7" [] [] 30 45 20500 20500

/-- C7 (amended): when the identifier or "Approved" column cannot be
resolved (the SchemaError situation) or no row matches the identifier
(the NotFound situation), `approve_by_id` and `reject_by_id` abort
without writing any cell — the worksheet is returned untouched — but
no NotFound or SchemaError condition is signalled: the admin handlers
surface their unconditional success messages regardless. -/
theorem approve_reject_error_abort
    (ws : Ws) (idCol idVal : String) (defaults : List String)
    (extra : List (String × String))
    (h : headerMap ws defaults idCol = none ∨ headerMap ws defaults "Approved" = none ∨
         ∀ idIdx, headerMap ws defaults idCol = some idIdx →
           findRowById ws idIdx idVal = none) :
    approve_by_id ws idCol idVal defaults extra = ws ∧
    reject_by_id ws idCol idVal defaults = ws ∧
    (∀ w idv durf t, (approve_listing_handler w idv durf t).2 = "Approved.") ∧
    (∀ w idv, (reject_listing_handler w idv).2 = "Rejected.") := by
  obtain ⟨h1, h2⟩ := approve_reject_noop ws idCol idVal defaults extra h
  exact ⟨h1, h2, fun _ _ _ _ => rfl, fun _ _ => rfl⟩

/-- C7 witness: `wsNoAp` has no "Approved" column. -/
theorem approve_reject_error_abort_witness :
    approve_by_id wsNoAp "Listing_ID" "D-1" DIR_HEADERS [] = wsNoAp ∧
    reject_by_id wsNoAp "Listing_ID" "D-1" DIR_HEADERS = wsNoAp ∧
    (∀ w idv durf t, (approve_listing_handler w idv durf t).2 = "Approved.") ∧
    (∀ w idv, (reject_listing_handler w idv).2 = "Rejected.") :=
  approve_reject_error_abort wsNoAp "Listing_ID" "D-1" DIR_HEADERS []
    (Or.inr (Or.inl (by decide)))

/-- C7 counterexample: concretely, on a sheet with no "Approved" column
(a SchemaError situation) and on a missing identifier (a NotFound
situation) the handlers return the untouched worksheet paired with the
plain unconditional success/rejection message — no NotFound or
SchemaError condition is surfaced to the moderator, contrary to the
claim. -/
theorem approve_silent_error_cex :
    approve_listing_handler wsNoAp "D-1" "30" 0 = (wsNoAp, "Approved.") ∧
    approve_listing_handler wsD "D-404" "30" 20500 = (wsD, "Approved.") ∧
    reject_listing_handler wsNoAp "D-1" = (wsNoAp, "Rejected.") := by
  refine ⟨?_, ?_, ?_⟩ <;> decide

/-- C8: for a table with the status column, the pending queue keeps
exactly the rows whose upper-cased status differs from the approved
sentinel "TRUE"; blank (Pending) rows and "REJECTED" rows both appear
in it — no rejected row is hidden from the queue. -/
theorem pending_queue_iff (df : DataFrame) (hA : "Approved" ∈ df.cols) :
    (∀ r, r ∈ (pending_rows df).rows ↔
      r ∈ df.rows ∧ pyUpper (getCellD df.cols r "Approved") ≠ "TRUE") ∧
    (∀ r, r ∈ df.rows → getCellD df.cols r "Approved" = "" →
      r ∈ (pending_rows df).rows) ∧
    (∀ r, r ∈ df.rows → getCellD df.cols r "Approved" = "REJECTED" →
      r ∈ (pending_rows df).rows) := by
  have hiff : ∀ r, r ∈ (pending_rows df).rows ↔
      r ∈ df.rows ∧ pyUpper (getCellD df.cols r "Approved") ≠ "TRUE" := by
    intro r
    unfold pending_rows
    by_cases he : (!df.isEmpty) = true ∧ "Approved" ∈ df.cols
    · rw [if_pos he]
      simp only [List.mem_filter, decide_eq_true_eq]
    · rw [if_neg he]
      constructor
      · intro hmem
        simp at hmem
      · rintro ⟨hm, _⟩
        exfalso
        apply he
        have hrows : df.rows ≠ [] := List.ne_nil_of_mem hm
        have hcols : df.cols ≠ [] := by
          intro hc
          rw [hc] at hA
          simp at hA
        exact ⟨by simp [DataFrame.isEmpty, hrows, hcols], hA⟩
  refine ⟨hiff, fun r hm hst => (hiff r).mpr ⟨hm, ?_⟩, fun r hm hst => (hiff r).mpr ⟨hm, ?_⟩⟩
  · rw [hst]
    decide
  · rw [hst]
    decide

/-- C8 witness: the three-member table `dfQ` (one blank status, one
"REJECTED", one "TRUE"). -/
theorem pending_queue_iff_witness :
    (∀ r, r ∈ (pending_rows dfQ).rows ↔
      r ∈ dfQ.rows ∧ pyUpper (getCellD dfQ.cols r "Approved") ≠ "TRUE") ∧
    (∀ r, r ∈ dfQ.rows → getCellD dfQ.cols r "Approved" = "" →
      r ∈ (pending_rows dfQ).rows) ∧
    (∀ r, r ∈ dfQ.rows → getCellD dfQ.cols r "Approved" = "REJECTED" →
      r ∈ (pending_rows dfQ).rows) :=
  pending_queue_iff dfQ (by decide)

/-- C10: the public-view filter is idempotent — applied to its own
output with the same column arguments at the same instant it returns
exactly the same rows. -/
theorem df_public_idem (df : DataFrame) (ac : String) (ec : Option String) (now : Int) :
    (df_public (df_public df ac ec now) ac ec now).rows = (df_public df ac ec now).rows := by
  unfold df_public
  by_cases h1 : df.isEmpty = true
  · rw [if_pos h1]
    rfl
  · rw [if_neg h1]
    by_cases h2 :
        (DataFrame.mk df.cols (expFilter df.cols ec now (apFilter df.cols ac df.rows))).isEmpty
          = true
    · rw [if_pos h2]
      have hR : expFilter df.cols ec now (apFilter df.cols ac df.rows) = [] := by
        unfold DataFrame.isEmpty at h2
        simp only at h2
        rcases Bool.or_eq_true_iff.mp h2 with h | h
        · exact List.isEmpty_iff.mp h
        · exfalso
          apply h1
          unfold DataFrame.isEmpty
          rw [h]
          simp
      exact hR.symm
    · rw [if_neg h2]
      exact expap_idem df.cols ac ec now df.rows
